import Mathlib

/-!
Verification of the car-sales data generator (generate_car_sales_data.py).

The script is embedded shallowly: Python ints become `Int`/`Nat`, Python
floats become `Rat` (exact arithmetic; the one place where binary floating
point visibly deviates from exact arithmetic is noted at `numRecords`),
and the pseudo-random stream drawn from `random` (seeded once at startup)
is modelled as an explicit function `g : Nat -> Rat` supplying the
successive unit-interval draws, threaded through the sampler in the order
the source consumes them.
-/

namespace CarSales

/-- Model of CPython `round` on exact rationals: round to the nearest
integer, ties going to the even integer (banker's rounding). Used both for
the two-decimal rounding `round(x, 2)` in the sampler (via `round2`) and,
under the name written in the spec, for the spec's `round(...)` formula in
the record-count computation. -/
def pyRound (x : ℚ) : ℤ :=
  if x - Int.floor x < 1/2 then Int.floor x
  else if 1/2 < x - Int.floor x then Int.floor x + 1
  else if Int.floor x % 2 = 0 then Int.floor x else Int.floor x + 1

/-- Model of Python `round(x, 2)`: round to the nearest multiple of 1/100. -/
def round2 (x : ℚ) : ℚ := (pyRound (100 * x) : ℚ) / 100

/-- Model of Python `random.randint(a, b)` (both endpoints inclusive),
driven by one unit-interval draw `u`. -/
def pyRandint (a b : ℤ) (u : ℚ) : ℤ := a + Int.floor (u * ((b : ℚ) - a + 1))

/-- Model of Python `random.uniform(a, b)`, driven by one unit-interval
draw `u`. -/
def pyUniform (a b : ℚ) (u : ℚ) : ℚ := a + (b - a) * u

/-- Model of Python `random.choice(xs)`: uniform selection, driven by one
unit-interval draw `u`. The default `d` is never reached when `xs` is
nonempty and `0 <= u < 1`. -/
def pyChoiceD (xs : List α) (d : α) (u : ℚ) : α :=
  xs.getD (Int.floor (u * xs.length)).toNat d

/-- Cumulative weights, as built by `itertools.accumulate` inside
`random.choices`. -/
def cumWeights (ws : List ℚ) : List ℚ := (ws.scanl (fun a b => a + b) 0).tail

/-- Model of the index selected by `random.choices(xs, weights=ws)` for a
single draw: CPython computes `bisect.bisect(cum_weights, u * total, 0,
len(xs) - 1)`, which for a sorted cumulative-weight list equals the number
of entries among the first `len(xs) - 1` that are at most `u * total`
(and is therefore always a valid index). -/
def weightedIndex (ws : List ℚ) (u : ℚ) : ℕ :=
  ((cumWeights ws).take (ws.length - 1)).countP (fun c => decide (c ≤ u * ws.sum))

/-- Model of `random.choices(xs, weights=ws)[0]`, driven by one
unit-interval draw `u`. -/
def pyChoicesD (xs : List α) (ws : List ℚ) (d : α) (u : ℚ) : α :=
  xs.getD (weightedIndex ws u) d

/-- Model of Python `f-string` zero padding `{n:0wd}` for a nonnegative
integer: the decimal digits of `n`, left-padded with zeros to a minimum
width `w` (numbers with more than `w` digits are printed in full). -/
def zpad (w : ℕ) (n : ℕ) : String :=
  let s := Nat.repr n
  ⟨List.replicate (w - s.length) '0' ++ s.data⟩

/-- One entry of the `car_inventory` catalog. -/
structure CarEntry where
  make : String
  model : String
  base_price : ℤ
  category : String
deriving DecidableEq

/-- The static catalog of products (source lines 37-62). -/
def car_inventory : List CarEntry := [
  ⟨"Toyota", "Camry", 28000, "Sedan"⟩,
  ⟨"Toyota", "RAV4", 32000, "SUV"⟩,
  ⟨"Toyota", "Corolla", 22000, "Sedan"⟩,
  ⟨"Honda", "Accord", 29000, "Sedan"⟩,
  ⟨"Honda", "CR-V", 33000, "SUV"⟩,
  ⟨"Honda", "Civic", 24000, "Sedan"⟩,
  ⟨"Ford", "F-150", 42000, "Truck"⟩,
  ⟨"Ford", "Explorer", 38000, "SUV"⟩,
  ⟨"Ford", "Escape", 30000, "SUV"⟩,
  ⟨"Chevrolet", "Silverado", 40000, "Truck"⟩,
  ⟨"Chevrolet", "Equinox", 29000, "SUV"⟩,
  ⟨"Chevrolet", "Malibu", 26000, "Sedan"⟩,
  ⟨"Tesla", "Model 3", 45000, "Electric"⟩,
  ⟨"Tesla", "Model Y", 52000, "Electric"⟩,
  ⟨"BMW", "3 Series", 45000, "Luxury"⟩,
  ⟨"BMW", "X5", 65000, "Luxury"⟩,
  ⟨"Mercedes", "C-Class", 48000, "Luxury"⟩,
  ⟨"Mercedes", "GLE", 62000, "Luxury"⟩,
  ⟨"Nissan", "Altima", 27000, "Sedan"⟩,
  ⟨"Nissan", "Rogue", 31000, "SUV"⟩,
  ⟨"Hyundai", "Sonata", 26500, "Sedan"⟩,
  ⟨"Hyundai", "Tucson", 29500, "SUV"⟩,
  ⟨"Mazda", "CX-5", 30000, "SUV"⟩,
  ⟨"Mazda", "Mazda3", 23500, "Sedan"⟩]

/-- Categorical value set `colors` (source line 64). -/
def colors : List String :=
  ["White", "Black", "Silver", "Gray", "Blue", "Red", "Green", "Brown"]

/-- Categorical value set `dealerships` (source line 65). -/
def dealerships : List String :=
  ["Downtown Motors", "Westside Auto", "Eastside Dealers",
   "North Point Cars", "South Bay Autos"]

/-- Categorical value set `payment_methods` (source line 66). -/
def payment_methods : List String := ["Cash", "Finance", "Lease"]

/-- Weights `finance_weights` for payment methods (source line 67). -/
def finance_weights : List ℚ := [15/100, 60/100, 25/100]

/-- Categorical value set `salespeople` (source lines 69-72). -/
def salespeople : List String :=
  ["John Smith", "Sarah Johnson", "Michael Brown", "Emily Davis",
   "Robert Wilson", "Jennifer Martinez", "David Anderson", "Lisa Taylor",
   "James Thomas", "Mary Jackson"]

/-- Categorical value set `states` (source line 74). -/
def states : List String :=
  ["CA", "TX", "FL", "NY", "IL", "PA", "OH", "GA", "NC", "MI"]

/-- The `MONTHLY_MULTIPLIERS` dict (source lines 12-25), as exact
rationals; months outside 1..12 are absent from the dict and mapped to 0
here (the driver only looks up 1..12). -/
def MONTHLY_MULTIPLIERS (month : ℤ) : ℚ :=
  if month = 1 then 75/100
  else if month = 2 then 80/100
  else if month = 3 then 110/100
  else if month = 4 then 115/100
  else if month = 5 then 125/100
  else if month = 6 then 130/100
  else if month = 7 then 125/100
  else if month = 8 then 110/100
  else if month = 9 then 95/100
  else if month = 10 then 100/100
  else if month = 11 then 105/100
  else if month = 12 then 120/100
  else 0

/-- Constant `BASE_RECORDS_PER_MONTH` (source line 28). -/
def BASE_RECORDS_PER_MONTH : ℕ := 100000

/-- Constant `START_YEAR` (source line 29). -/
def START_YEAR : ℤ := 2015

/-- Constant `END_YEAR` (source line 30). -/
def END_YEAR : ℤ := 2024

/-- Constant `OUTPUT_FOLDER` (source line 31). -/
def OUTPUT_FOLDER : String := "car_sales_data"

/-- The function `get_days_in_month` (source lines 77-87). Python `%` on a
positive modulus agrees with `Int.emod`. -/
def get_days_in_month (year month : ℤ) : ℤ :=
  if month ∈ ([1, 3, 5, 7, 8, 10, 12] : List ℤ) then 31
  else if month ∈ ([4, 6, 9, 11] : List ℤ) then 30
  else
    if year % 4 = 0 ∧ (year % 100 ≠ 0 ∨ year % 400 = 0) then 29
    else 28

/-- The `(car_year_choices, car_year_weights)` pair computed by the
conditional at source lines 96-101, with the float literals 0.3 and 0.7
carried as exact rationals (both branches use the same literals). -/
def carYearParams (year : ℤ) : List ℤ × List ℚ :=
  if year ≤ 2016 then ([year - 1, year], [3/10, 7/10])
  else ([year - 1, year], [3/10, 7/10])

/-- A sale date, stored structurally; the source stores
`strftime('%Y-%m-%d')`, whose lexicographic string order coincides with
the order of `dateKey` for four-digit years. -/
structure SaleDate where
  year : ℤ
  month : ℤ
  day : ℤ
deriving DecidableEq

/-- Numeric key realizing the order of the formatted date string. -/
def dateKey (d : SaleDate) : ℤ := d.year * 10000 + d.month * 100 + d.day

/-- One generated transaction record (the dict built at source lines
138-154). -/
structure SaleRecord where
  sale_id : String
  sale_date : SaleDate
  customer_id : String
  car_make : String
  car_model : String
  car_year : ℤ
  category : String
  color : String
  mileage : ℤ
  sale_price : ℚ
  payment_method : String
  dealership : String
  salesperson : String
  state : String
  commission : ℚ
deriving DecidableEq

/-- Default car entry for the (unreachable) out-of-range branch of
`pyChoiceD`. -/
def dCar : CarEntry := ⟨"", "", 0, ""⟩

/-- Default string for the (unreachable) out-of-range branch of
`pyChoiceD`. -/
def dStr : String := ""

/-- The body of the `for i in range(num_records)` loop of
`generate_month_data` (source lines 103-154): builds the record at batch
position `i`. The generator `g` is read at positions `k .. k+10`, one per
`random.*` call, in source order. -/
def sampleRecord (year month days_in_month : ℤ) (car_year_choices : List ℤ)
    (car_year_weights : List ℚ) (customer_id_offset sale_id_offset i : ℕ)
    (g : ℕ → ℚ) (k : ℕ) : SaleRecord :=
  let day := pyRandint 1 days_in_month (g k)
  let sale_date : SaleDate := ⟨year, month, day⟩
  let car := pyChoiceD car_inventory dCar (g (k + 1))
  let price_variation := pyUniform (-5/100) (15/100) (g (k + 2))
  let sale_price := round2 ((car.base_price : ℚ) * (1 + price_variation))
  let color := pyChoiceD colors dStr (g (k + 3))
  let dealership := pyChoiceD dealerships dStr (g (k + 4))
  let payment_method := pyChoicesD payment_methods finance_weights dStr (g (k + 5))
  let salesperson := pyChoiceD salespeople dStr (g (k + 6))
  let state := pyChoiceD states dStr (g (k + 7))
  let car_year := pyChoicesD car_year_choices car_year_weights year (g (k + 8))
  let mileage := pyRandint 5 50 (g (k + 9))
  let customer_id := "CUST" ++ zpad 7 (customer_id_offset + i)
  let sale_id := "SALE" ++ zpad 8 (sale_id_offset + i)
  let commission_rate := pyUniform (2/100) (5/100) (g (k + 10))
  let commission := round2 (sale_price * commission_rate)
  ⟨sale_id, sale_date, customer_id, car.make, car.model, car_year,
   car.category, color, mileage, sale_price, payment_method, dealership,
   salesperson, state, commission⟩

/-- The function `generate_month_data` (source lines 90-156): computes
`days_in_month` and the car-year choices/weights once, then produces
`num_records` records. Record `i` consumes the 11 draws
`g (k + 11*i) .. g (k + 11*i + 10)`. -/
def generate_month_data (year month : ℤ) (num_records : ℕ)
    (customer_id_offset sale_id_offset : ℕ) (g : ℕ → ℚ) (k : ℕ) :
    List SaleRecord :=
  let days_in_month := get_days_in_month year month
  let cyp := carYearParams year
  (List.range num_records).map (fun i =>
    sampleRecord year month days_in_month cyp.1 cyp.2
      customer_id_offset sale_id_offset i g (k + 11 * i))

/-- The per-month record count of source line 184,
`int(BASE_RECORDS_PER_MONTH * MONTHLY_MULTIPLIERS[month])`: Python `int`
truncates toward zero, which for the nonnegative products here is the
floor. The multipliers are carried as exact rationals; with the shipped
constant `base = 100000`, binary-float evaluation of `100000 * 1.15`
yields `114999.99999999999` and hence 114999 for month 4, one less than
the exact value — the claims settled below only evaluate this count at
exactly-representable products. -/
def numRecords (base : ℕ) (month : ℤ) : ℕ :=
  (Int.floor ((base : ℚ) * MONTHLY_MULTIPLIERS month)).toNat

/-- Ordering of records by the sort key of source line 191
(`df.sort_values('sale_date')`): comparison of the formatted date
strings, realized by `dateKey`. -/
def dateLe (a b : SaleRecord) : Prop := dateKey a.sale_date ≤ dateKey b.sale_date

instance : DecidableRel dateLe := fun a b =>
  Int.decLe (dateKey a.sale_date) (dateKey b.sale_date)

instance : IsTotal SaleRecord dateLe :=
  ⟨fun a b => Int.le_total (dateKey a.sale_date) (dateKey b.sale_date)⟩

instance : IsTrans SaleRecord dateLe := ⟨fun _ _ _ h h' => le_trans h h'⟩

/-- Modelled from the library contract of the sort at source line 191:
`df.sort_values('sale_date')` (pandas with the default
`kind='quicksort'`, dispatching to numpy) guarantees exactly that the
result is a permutation of the input whose sale dates are
non-decreasing; numpy documents `quicksort` as NOT stable, so nothing
more is pinned down. The sort is therefore modelled as an arbitrary
function satisfying this contract. -/
def SortContract (f : List SaleRecord → List SaleRecord) : Prop :=
  ∀ l : List SaleRecord, List.Perm (f l) l ∧ List.Sorted dateLe (f l)

/-- A concrete sort satisfying `SortContract` (stable on ties). -/
def sortByDate (l : List SaleRecord) : List SaleRecord :=
  List.insertionSort dateLe l

/-- A second concrete sort satisfying `SortContract` that reverses the
relative order of records with equal sale dates. -/
def revTieSort (l : List SaleRecord) : List SaleRecord :=
  List.insertionSort dateLe l.reverse

/-- Output of one iteration of the driver loop (source lines 181-217):
the generated batch `month_data`, the sorted frame `df`, the output file
name, and the month revenue. -/
structure MonthOut where
  year : ℤ
  month : ℤ
  month_data : List SaleRecord
  df : List SaleRecord
  filename : String
  revenue : ℚ
deriving DecidableEq

/-- The driver loop of source lines 181-217, over an explicit list of
`(year, month)` pairs, threading the random stream position `k` and the
two id offsets; after each month both offsets advance by `num_records`
(source lines 203-204). The sort of line 191 is an explicit parameter
`sortFn` (see `SortContract`). -/
def driverGo (sortFn : List SaleRecord → List SaleRecord) (base : ℕ)
    (g : ℕ → ℚ) : List (ℤ × ℤ) → ℕ → ℕ → ℕ → List MonthOut
  | [], _, _, _ => []
  | (year, month) :: rest, k, customer_id_offset, sale_id_offset =>
    let num_records := numRecords base month
    let month_data :=
      generate_month_data year month num_records customer_id_offset
        sale_id_offset g k
    let df := sortFn month_data
    let month_revenue := (df.map SaleRecord.sale_price).sum
    let output_filename :=
      OUTPUT_FOLDER ++ "/sales_" ++ toString year ++ "_"
        ++ zpad 2 month.toNat ++ ".csv"
    ⟨year, month, month_data, df, output_filename, month_revenue⟩ ::
      driverGo sortFn base g rest (k + 11 * num_records)
        (customer_id_offset + num_records) (sale_id_offset + num_records)

/-- The `(year, month)` pairs visited by the nested loops of source lines
181-182: years `START_YEAR..END_YEAR`, months `1..12`. -/
def monthPairs (startYear endYear : ℤ) : List (ℤ × ℤ) :=
  ((List.range (endYear - startYear + 1).toNat).map
      (fun i => startYear + (i : ℤ))).flatMap
    (fun y => (List.range 12).map (fun j => (y, (j : ℤ) + 1)))

/-- The whole generation run with the shipped configuration: initial
offsets 1000000 and 20000000 (source lines 177-178). -/
def driver (sortFn : List SaleRecord → List SaleRecord) (g : ℕ → ℚ) :
    List MonthOut :=
  driverGo sortFn BASE_RECORDS_PER_MONTH g (monthPairs START_YEAR END_YEAR)
    0 1000000 20000000

/-- All records of a run in generation order: the concatenation of the
generated (pre-sort) batches of `driverGo`. -/
def runGenOrder (sortFn : List SaleRecord → List SaleRecord) (base : ℕ)
    (g : ℕ → ℚ) (pairs : List (ℤ × ℤ)) (k co so : ℕ) : List SaleRecord :=
  (driverGo sortFn base g pairs k co so).flatMap MonthOut.month_data

/-- The numeric id indexes assigned across a run that starts its offset
counter at `c`: each month contributes `numRecords base month` successive
values and advances the counter by that batch size, mirroring `driverGo`. -/
def idxList (base : ℕ) : List (ℤ × ℤ) → ℕ → List ℕ
  | [], _ => []
  | (_, month) :: rest, c =>
    List.range' c (numRecords base month) ++
      idxList base rest (c + numRecords base month)

/-- Total record count of a run. -/
def totalRecords (base : ℕ) (pairs : List (ℤ × ℤ)) : ℕ :=
  (pairs.map (fun p => numRecords base p.2)).sum

/-- The all-zero random stream, used to instantiate theorems at concrete
inputs. -/
def zeroG : ℕ → ℚ := fun _ => 0

/-! Helper lemmas about the Python primitives. -/

lemma floor_le_pyRound (x : ℚ) : Int.floor x ≤ pyRound x := by
  unfold pyRound
  split_ifs <;> omega

lemma pyRound_le_floor_add_one (x : ℚ) : pyRound x ≤ Int.floor x + 1 := by
  unfold pyRound
  split_ifs <;> omega

lemma int_le_pyRound (n : ℤ) (x : ℚ) (h : (n : ℚ) ≤ x) : n ≤ pyRound x :=
  le_trans (Int.le_floor.mpr h) (floor_le_pyRound x)

lemma pyRound_le_int (n : ℤ) (x : ℚ) (h : x ≤ n) : pyRound x ≤ n := by
  have hf : Int.floor x ≤ n := Int.floor_le_floor h |>.trans_eq (Int.floor_intCast n)
  rcases lt_or_eq_of_le hf with hlt | heq
  · exact (pyRound_le_floor_add_one x).trans (by omega)
  · have hxf : x - Int.floor x ≤ 0 := by
      rw [heq]
      exact sub_nonpos.mpr h
    unfold pyRound
    have h1 : x - (Int.floor x : ℚ) < 1/2 := lt_of_le_of_lt hxf (by norm_num)
    simp only [if_pos h1]
    omega

lemma pyRound_le_add_half (x : ℚ) : (pyRound x : ℚ) ≤ x + 1/2 := by
  have hfl := Int.floor_le x
  have hfr := Int.sub_one_lt_floor x
  unfold pyRound
  split_ifs with h1 h2 h3 <;> push_cast <;> linarith

lemma sub_half_le_pyRound (x : ℚ) : x - 1/2 ≤ (pyRound x : ℚ) := by
  have hfl := Int.floor_le x
  have hfr := Int.sub_one_lt_floor x
  unfold pyRound
  split_ifs with h1 h2 h3 <;> push_cast <;> linarith

lemma round2_bounds (A B : ℤ) (x : ℚ) (h1 : (A : ℚ) ≤ 100 * x)
    (h2 : 100 * x ≤ (B : ℚ)) :
    (A : ℚ) / 100 ≤ round2 x ∧ round2 x ≤ (B : ℚ) / 100 := by
  have hA : A ≤ pyRound (100 * x) := int_le_pyRound A _ h1
  have hB : pyRound (100 * x) ≤ B := pyRound_le_int B _ h2
  have hA' : (A : ℚ) ≤ (pyRound (100 * x) : ℚ) := by exact_mod_cast hA
  have hB' : ((pyRound (100 * x) : ℚ)) ≤ (B : ℚ) := by exact_mod_cast hB
  unfold round2
  constructor <;> linarith

lemma round2_close (x : ℚ) : x - 1/200 ≤ round2 x ∧ round2 x ≤ x + 1/200 := by
  have h1 := sub_half_le_pyRound (100 * x)
  have h2 := pyRound_le_add_half (100 * x)
  unfold round2
  constructor <;> linarith

lemma pyRandint_bounds (a b : ℤ) (u : ℚ) (hab : a ≤ b) (h0 : 0 ≤ u)
    (h1 : u < 1) : a ≤ pyRandint a b u ∧ pyRandint a b u ≤ b := by
  unfold pyRandint
  have hpos : (0 : ℚ) < (b : ℚ) - a + 1 := by
    have : (a : ℚ) ≤ (b : ℚ) := by exact_mod_cast hab
    linarith
  constructor
  · have : (0 : ℤ) ≤ Int.floor (u * ((b : ℚ) - a + 1)) :=
      Int.floor_nonneg.mpr (mul_nonneg h0 (le_of_lt hpos))
    omega
  · have hlt : u * ((b : ℚ) - a + 1) < (b : ℚ) - a + 1 := by
      nlinarith
    have : Int.floor (u * ((b : ℚ) - a + 1)) < b - a + 1 := by
      apply Int.floor_lt.mpr
      push_cast
      linarith
    omega

lemma getD_mem_of_lt (xs : List α) (n : ℕ) (d : α) (h : n < xs.length) :
    xs.getD n d ∈ xs := by
  rw [List.getD_eq_getElem?_getD, List.getElem?_eq_getElem h]
  exact List.getElem_mem h

lemma pyChoiceD_mem (xs : List α) (d : α) (u : ℚ) (hne : xs ≠ [])
    (h0 : 0 ≤ u) (h1 : u < 1) : pyChoiceD xs d u ∈ xs := by
  unfold pyChoiceD
  apply getD_mem_of_lt
  have hlen : (0 : ℚ) < (xs.length : ℚ) := by
    have : 0 < xs.length := List.length_pos.mpr hne
    exact_mod_cast this
  have hfl : Int.floor (u * (xs.length : ℚ)) < (xs.length : ℤ) := by
    apply Int.floor_lt.mpr
    push_cast
    nlinarith
  have hnn : (0 : ℤ) ≤ Int.floor (u * (xs.length : ℚ)) :=
    Int.floor_nonneg.mpr (mul_nonneg h0 (le_of_lt hlen))
  omega

lemma weightedIndex_lt (ws : List ℚ) (u : ℚ) (h : 1 ≤ ws.length) :
    weightedIndex ws u < ws.length := by
  unfold weightedIndex
  have h1 := List.countP_le_length
    (p := fun c => decide (c ≤ u * ws.sum))
    (l := (cumWeights ws).take (ws.length - 1))
  have h2 := List.length_take_le (ws.length - 1) (cumWeights ws)
  omega

lemma pyChoicesD_mem (xs : List α) (ws : List ℚ) (d : α) (u : ℚ)
    (hlen : ws.length = xs.length) (h1 : 1 ≤ ws.length) :
    pyChoicesD xs ws d u ∈ xs := by
  unfold pyChoicesD
  apply getD_mem_of_lt
  have := weightedIndex_lt ws u h1
  omega

/-! Structural lemmas about the sampler, the batches and the driver. -/

lemma length_generate_month_data (year month : ℤ) (n co so k : ℕ)
    (g : ℕ → ℚ) : (generate_month_data year month n co so g k).length = n := by
  simp [generate_month_data]

lemma sampleRecord_customer_id (year month days : ℤ) (cyc : List ℤ)
    (cyw : List ℚ) (co so i : ℕ) (g : ℕ → ℚ) (k : ℕ) :
    (sampleRecord year month days cyc cyw co so i g k).customer_id
      = "CUST" ++ zpad 7 (co + i) := rfl

lemma sampleRecord_sale_id (year month days : ℤ) (cyc : List ℤ)
    (cyw : List ℚ) (co so i : ℕ) (g : ℕ → ℚ) (k : ℕ) :
    (sampleRecord year month days cyc cyw co so i g k).sale_id
      = "SALE" ++ zpad 8 (so + i) := rfl

lemma gmd_map_customer_id (year month : ℤ) (n co so k : ℕ) (g : ℕ → ℚ) :
    (generate_month_data year month n co so g k).map SaleRecord.customer_id
      = (List.range' co n).map (fun j => "CUST" ++ zpad 7 j) := by
  simp only [generate_month_data, List.map_map, List.range'_eq_map_range]
  apply List.map_congr_left
  intro i _
  rfl

lemma gmd_map_sale_id (year month : ℤ) (n co so k : ℕ) (g : ℕ → ℚ) :
    (generate_month_data year month n co so g k).map SaleRecord.sale_id
      = (List.range' so n).map (fun j => "SALE" ++ zpad 8 j) := by
  simp only [generate_month_data, List.map_map, List.range'_eq_map_range]
  apply List.map_congr_left
  intro i _
  rfl

lemma runGenOrder_nil (sortFn : List SaleRecord → List SaleRecord)
    (base : ℕ) (g : ℕ → ℚ) (k co so : ℕ) :
    runGenOrder sortFn base g [] k co so = [] := rfl

lemma runGenOrder_cons (sortFn : List SaleRecord → List SaleRecord)
    (base : ℕ) (g : ℕ → ℚ) (year month : ℤ) (rest : List (ℤ × ℤ))
    (k co so : ℕ) :
    runGenOrder sortFn base g ((year, month) :: rest) k co so
      = generate_month_data year month (numRecords base month) co so g k
          ++ runGenOrder sortFn base g rest (k + 11 * numRecords base month)
              (co + numRecords base month) (so + numRecords base month) := rfl

lemma runGenOrder_map_customer_id (sortFn : List SaleRecord → List SaleRecord)
    (base : ℕ) (g : ℕ → ℚ) :
    ∀ (pairs : List (ℤ × ℤ)) (k co so : ℕ),
      (runGenOrder sortFn base g pairs k co so).map SaleRecord.customer_id
        = (idxList base pairs co).map (fun j => "CUST" ++ zpad 7 j)
  | [], _, _, _ => rfl
  | (year, month) :: rest, k, co, so => by
    rw [runGenOrder_cons, List.map_append, gmd_map_customer_id,
      runGenOrder_map_customer_id sortFn base g rest
        (k + 11 * numRecords base month) (co + numRecords base month)
        (so + numRecords base month)]
    simp [idxList]

lemma runGenOrder_map_sale_id (sortFn : List SaleRecord → List SaleRecord)
    (base : ℕ) (g : ℕ → ℚ) :
    ∀ (pairs : List (ℤ × ℤ)) (k co so : ℕ),
      (runGenOrder sortFn base g pairs k co so).map SaleRecord.sale_id
        = (idxList base pairs so).map (fun j => "SALE" ++ zpad 8 j)
  | [], _, _, _ => rfl
  | (year, month) :: rest, k, co, so => by
    rw [runGenOrder_cons, List.map_append, gmd_map_sale_id,
      runGenOrder_map_sale_id sortFn base g rest
        (k + 11 * numRecords base month) (co + numRecords base month)
        (so + numRecords base month)]
    simp [idxList]

lemma idxList_eq_range' (base : ℕ) :
    ∀ (pairs : List (ℤ × ℤ)) (c : ℕ),
      idxList base pairs c = List.range' c (totalRecords base pairs)
  | [], c => rfl
  | (year, month) :: rest, c => by
    rw [idxList, idxList_eq_range' base rest (c + numRecords base month)]
    rw [List.range'_append_1]
    simp [totalRecords, Nat.add_comm]

lemma idxList_pairwise (base : ℕ) (pairs : List (ℤ × ℤ)) (c : ℕ) :
    (idxList base pairs c).Pairwise (· < ·) := by
  rw [idxList_eq_range' base pairs c]
  exact List.pairwise_lt_range' c (totalRecords base pairs)

lemma idxList_nodup (base : ℕ) (pairs : List (ℤ × ℤ)) (c : ℕ) :
    (idxList base pairs c).Nodup :=
  (idxList_pairwise base pairs c).imp Nat.ne_of_lt

lemma mem_runGenOrder_ids (sortFn : List SaleRecord → List SaleRecord)
    (base : ℕ) (g : ℕ → ℚ) :
    ∀ (pairs : List (ℤ × ℤ)) (k co so : ℕ) (r : SaleRecord),
      r ∈ runGenOrder sortFn base g pairs k co so →
      ∃ t : ℕ, r.customer_id = "CUST" ++ zpad 7 (co + t)
        ∧ r.sale_id = "SALE" ++ zpad 8 (so + t)
  | [], _, _, _, r, hr => absurd hr (by simp [runGenOrder_nil])
  | (year, month) :: rest, k, co, so, r, hr => by
    rw [runGenOrder_cons, List.mem_append] at hr
    rcases hr with hr | hr
    · simp only [generate_month_data, List.mem_map, List.mem_range] at hr
      obtain ⟨i, _, rfl⟩ := hr
      exact ⟨i, rfl, rfl⟩
    · obtain ⟨t, h1, h2⟩ := mem_runGenOrder_ids sortFn base g rest
        (k + 11 * numRecords base month) (co + numRecords base month)
        (so + numRecords base month) r hr
      exact ⟨numRecords base month + t,
        by rw [h1, Nat.add_assoc], by rw [h2, Nat.add_assoc]⟩

lemma one_le_get_days_in_month (year month : ℤ) :
    1 ≤ get_days_in_month year month := by
  unfold get_days_in_month
  split_ifs <;> norm_num

lemma sortByDate_contract : SortContract sortByDate := fun l =>
  ⟨List.perm_insertionSort dateLe l, List.sorted_insertionSort dateLe l⟩

lemma revTieSort_contract : SortContract revTieSort := fun l =>
  ⟨(List.perm_insertionSort dateLe l.reverse).trans (List.reverse_perm l),
    List.sorted_insertionSort dateLe l.reverse⟩

lemma inventory_base_price_nonneg :
    ∀ e ∈ car_inventory, (0 : ℤ) ≤ e.base_price := by decide

/-! Claim theorems. -/

/-- C1, counterexample: the claim computes the monthly record count with
`round`; the source (line 184) uses `int`, i.e. truncation. At the
claim's own example (base 10, month 1, multiplier 0.75), the program
generates 7 records while `round(10 * 0.75) = round(7.5) = 8` under
CPython rounding. -/
theorem numRecords_round_refuted :
    (generate_month_data 2020 1 (numRecords 10 1) 0 0 zeroG 0).length = 7
      ∧ pyRound ((10 : ℚ) * MONTHLY_MULTIPLIERS 1) = 8 ∧ (7 : ℤ) ≠ 8 := by
  refine ⟨?_, ?_, by decide⟩
  · rw [length_generate_month_data]
    norm_num [numRecords, MONTHLY_MULTIPLIERS]
    rfl
  · norm_num [pyRound, MONTHLY_MULTIPLIERS]

/-- C1, amended: for every (year, month) pair, the number of records
generated for that month equals `int(baseRecordsPerMonth *
monthlyMultiplier[month])`, the truncation (floor, for these nonnegative
products) of the exact product; in particular `int(10 * 0.75) = 7`. -/
theorem numRecords_truncated_count :
    (∀ (year month : ℤ) (base co so k : ℕ) (g : ℕ → ℚ),
        (generate_month_data year month (numRecords base month) co so g k).length
          = (Int.floor ((base : ℚ) * MONTHLY_MULTIPLIERS month)).toNat)
      ∧ numRecords 10 1 = 7 :=
  ⟨fun year month base co so k g => by
      rw [length_generate_month_data]
      rfl,
    by
      norm_num [numRecords, MONTHLY_MULTIPLIERS]
      rfl⟩

/-- C2: across the entire run, in generation order, the customer ids are
exactly the string images of the index sequence that starts at the
customer offset and is advanced by each batch size, and likewise the sale
ids from the sale offset; both index sequences are strictly increasing
and pairwise distinct. -/
theorem ids_strictly_increasing (sortFn : List SaleRecord → List SaleRecord)
    (base : ℕ) (g : ℕ → ℚ) (pairs : List (ℤ × ℤ)) (k co so : ℕ) :
    ((runGenOrder sortFn base g pairs k co so).map SaleRecord.customer_id
        = (idxList base pairs co).map (fun j => "CUST" ++ zpad 7 j))
      ∧ ((runGenOrder sortFn base g pairs k co so).map SaleRecord.sale_id
        = (idxList base pairs so).map (fun j => "SALE" ++ zpad 8 j))
      ∧ (idxList base pairs co).Pairwise (· < ·)
      ∧ (idxList base pairs co).Nodup
      ∧ (idxList base pairs so).Pairwise (· < ·)
      ∧ (idxList base pairs so).Nodup :=
  ⟨runGenOrder_map_customer_id sortFn base g pairs k co so,
    runGenOrder_map_sale_id sortFn base g pairs k co so,
    idxList_pairwise base pairs co, idxList_nodup base pairs co,
    idxList_pairwise base pairs so, idxList_nodup base pairs so⟩

/-- C4, counterexample: with starting offset 1000000 the first customer
id the program produces is `CUST1000000` (the index already has 7 digits,
so the `0 7d` padding adds nothing), not `CUST0001000000` as the claim
says; moreover once an index exceeds 9999999 the padded field grows to 8
digits, so the index is not always 7 digits wide. -/
theorem id_example_refuted :
    (sampleRecord 2020 1 31 [2019, 2020] [3/10, 7/10] 1000000 20000000 0
        zeroG 0).customer_id = "CUST1000000"
      ∧ "CUST1000000" ≠ "CUST0001000000"
      ∧ (zpad 7 10000000).length = 8 :=
  ⟨rfl, by decide, by decide⟩

/-- C4, amended: customer ids are `CUST` followed by the decimal index
(offset plus batch position) zero-padded to a minimum of 7 digits, sale
ids are `SALE` plus the index padded to a minimum of 8 digits; with
starting offset 1000000 the first seven customer ids are
`CUST1000000`..`CUST1000006`. -/
theorem id_format :
    (∀ (year month days : ℤ) (cyc : List ℤ) (cyw : List ℚ)
        (co so i k : ℕ) (g : ℕ → ℚ),
        (sampleRecord year month days cyc cyw co so i g k).customer_id
            = "CUST" ++ zpad 7 (co + i)
          ∧ (sampleRecord year month days cyc cyw co so i g k).sale_id
            = "SALE" ++ zpad 8 (so + i))
      ∧ (generate_month_data 2020 1 7 1000000 20000000 zeroG 0).map
          SaleRecord.customer_id
        = ["CUST1000000", "CUST1000001", "CUST1000002", "CUST1000003",
           "CUST1000004", "CUST1000005", "CUST1000006"]
      ∧ zpad 7 5 = "0000005" ∧ zpad 8 20000000 = "20000000" :=
  ⟨fun year month days cyc cyw co so i k g => ⟨rfl, rfl⟩,
    by decide, by decide, by decide⟩

/-- C5: the `year <= 2016` conditional and its else branch compute the
identical `(choices, weights)` pair, so the car-year sampler is the same
function of the year on both sides; every sampled car year is `year - 1`
or `year`. -/
theorem car_year_branch_equivalence (year : ℤ) (u : ℚ) :
    carYearParams year = ([year - 1, year], [3/10, 7/10])
      ∧ (pyChoicesD (carYearParams year).1 (carYearParams year).2 year u
            = year - 1
          ∨ pyChoicesD (carYearParams year).1 (carYearParams year).2 year u
            = year) := by
  have hp : carYearParams year = ([year - 1, year], [3/10, 7/10]) := by
    unfold carYearParams
    split_ifs <;> rfl
  refine ⟨hp, ?_⟩
  rw [hp]
  have h := weightedIndex_lt [3/10, 7/10] u (by norm_num)
  simp only [List.length_cons, List.length_nil] at h
  unfold pyChoicesD
  have h01 : weightedIndex [3/10, 7/10] u = 0
      ∨ weightedIndex [3/10, 7/10] u = 1 := by omega
  rcases h01 with h0 | h1
  · left
    rw [h0]
    rfl
  · right
    rw [h1]
    rfl

/-- C8: with the random stream fixed by the seed and the configuration
constants fixed, the run is deterministic: two runs over equal random
streams produce identical month outputs (records, file names, revenues). -/
theorem run_deterministic (sortFn : List SaleRecord → List SaleRecord)
    (g g' : ℕ → ℚ) (h : g = g') : driver sortFn g = driver sortFn g' := by
  rw [h]

/-- Witness for C8 at the concrete all-zero stream. -/
theorem run_deterministic_witness :
    driver sortByDate zeroG = driver sortByDate zeroG :=
  run_deterministic sortByDate zeroG zeroG rfl

/-- Concrete record used to instantiate run-level theorems: the single
record of the run over the pair list [(2020, 1)] with base 2. -/
def wRec : SaleRecord :=
  sampleRecord 2020 1 (get_days_in_month 2020 1) (carYearParams 2020).1
    (carYearParams 2020).2 1000000 20000000 0 zeroG 0

/-- C10: every record of a run started from the shipped offsets 1000000
and 20000000 has its sale-id index exceeding its customer-id index by
exactly 19000000, since both counters advance in lockstep. -/
theorem sale_customer_offset_difference
    (sortFn : List SaleRecord → List SaleRecord) (base : ℕ) (g : ℕ → ℚ)
    (pairs : List (ℤ × ℤ)) (k : ℕ) (r : SaleRecord)
    (hr : r ∈ runGenOrder sortFn base g pairs k 1000000 20000000) :
    ∃ c s : ℕ, r.customer_id = "CUST" ++ zpad 7 c
      ∧ r.sale_id = "SALE" ++ zpad 8 s ∧ s = c + 19000000 := by
  obtain ⟨t, h1, h2⟩ :=
    mem_runGenOrder_ids sortFn base g pairs k 1000000 20000000 r hr
  exact ⟨1000000 + t, 20000000 + t, h1, h2, by omega⟩

/-- Witness for C10 at a concrete one-month run. -/
theorem sale_customer_offset_difference_witness :
    ∃ c s : ℕ, wRec.customer_id = "CUST" ++ zpad 7 c
      ∧ wRec.sale_id = "SALE" ++ zpad 8 s ∧ s = c + 19000000 :=
  sale_customer_offset_difference sortByDate 2 zeroG [(2020, 1)] 0 wRec (by
    have hn : numRecords 2 1 = 1 := by
      norm_num [numRecords, MONTHLY_MULTIPLIERS]
    rw [runGenOrder_cons, hn]
    refine List.mem_append.mpr (Or.inl ?_)
    simp only [generate_month_data]
    exact List.mem_map.mpr ⟨0, by decide, rfl⟩)

/-- C7: `get_days_in_month` follows the Gregorian rules: February has 29
days exactly when the year is divisible by 4 and (not by 100, or by 400),
and 28 otherwise; months 1, 3, 5, 7, 8, 10, 12 have 31 days and months
4, 6, 9, 11 have 30. -/
theorem days_in_month_gregorian (year : ℤ) :
    (get_days_in_month year 2 = 29
        ↔ (4 ∣ year ∧ (¬ (100 ∣ year) ∨ 400 ∣ year)))
      ∧ (get_days_in_month year 2 = 28
        ↔ ¬ (4 ∣ year ∧ (¬ (100 ∣ year) ∨ 400 ∣ year)))
      ∧ get_days_in_month year 1 = 31 ∧ get_days_in_month year 3 = 31
      ∧ get_days_in_month year 5 = 31 ∧ get_days_in_month year 7 = 31
      ∧ get_days_in_month year 8 = 31 ∧ get_days_in_month year 10 = 31
      ∧ get_days_in_month year 12 = 31 ∧ get_days_in_month year 4 = 30
      ∧ get_days_in_month year 6 = 30 ∧ get_days_in_month year 9 = 30
      ∧ get_days_in_month year 11 = 30 := by
  refine ⟨?_, ?_, ?_, ?_, ?_, ?_, ?_, ?_, ?_, ?_, ?_, ?_, ?_⟩ <;>
    simp only [get_days_in_month, List.mem_cons, List.mem_singleton,
      List.not_mem_nil] <;> norm_num <;> omega

/-- C9: every record generated for a target (year, month) carries a sale
date whose year and month equal the target and whose day lies in
`[1, get_days_in_month(year, month)]`, so the `datetime` construction at
source line 106 never fails. -/
theorem sale_date_valid (year month : ℤ) (n co so k : ℕ) (g : ℕ → ℚ)
    (hg : ∀ j, 0 ≤ g j ∧ g j < 1) :
    ∀ r ∈ generate_month_data year month n co so g k,
      r.sale_date.year = year ∧ r.sale_date.month = month
        ∧ 1 ≤ r.sale_date.day
        ∧ r.sale_date.day ≤ get_days_in_month year month := by
  intro r hr
  simp only [generate_month_data, List.mem_map, List.mem_range] at hr
  obtain ⟨i, _, rfl⟩ := hr
  have hb := pyRandint_bounds 1 (get_days_in_month year month)
    (g (k + 11 * i)) (one_le_get_days_in_month year month)
    (hg (k + 11 * i)).1 (hg (k + 11 * i)).2
  exact ⟨rfl, rfl, hb.1, hb.2⟩

/-- Concrete record of a one-record February batch, used to instantiate
the date-validity theorem. -/
def wRec2 : SaleRecord :=
  sampleRecord 2020 2 (get_days_in_month 2020 2) (carYearParams 2020).1
    (carYearParams 2020).2 0 0 0 zeroG 0

/-- Witness for C9 at a concrete input. -/
theorem sale_date_valid_witness :
    wRec2.sale_date.year = 2020 ∧ wRec2.sale_date.month = 2
      ∧ 1 ≤ wRec2.sale_date.day
      ∧ wRec2.sale_date.day ≤ get_days_in_month 2020 2 :=
  sale_date_valid 2020 2 1 0 0 0 zeroG
    (fun _ => ⟨le_refl 0, by norm_num [zeroG]⟩) wRec2
    (by
      simp only [generate_month_data]
      exact List.mem_map.mpr ⟨0, by decide, rfl⟩)

/-- C3, amended: the batch stored for a month is a permutation of the
generated batch whose sale dates are non-decreasing (the guarantee of
`sort_values`), of the same length; relative order of records with equal
sale dates is deterministic but NOT guaranteed to be the original sample
order, because pandas' default sort kind is quicksort, which numpy
documents as unstable. -/
theorem batch_sorted_by_sale_date (f : List SaleRecord → List SaleRecord)
    (hf : SortContract f) (year month : ℤ) (n co so k : ℕ) (g : ℕ → ℚ) :
    List.Sorted dateLe (f (generate_month_data year month n co so g k))
      ∧ List.Perm (f (generate_month_data year month n co so g k))
          (generate_month_data year month n co so g k)
      ∧ (f (generate_month_data year month n co so g k)).length = n := by
  obtain ⟨hp, hs⟩ := hf (generate_month_data year month n co so g k)
  exact ⟨hs, hp, by rw [hp.length_eq, length_generate_month_data]⟩

/-- Witness for C3 at a concrete two-record batch. -/
theorem batch_sorted_by_sale_date_witness :
    List.Sorted dateLe
        (sortByDate (generate_month_data 2020 1 2 1000000 20000000 zeroG 0))
      ∧ List.Perm
          (sortByDate (generate_month_data 2020 1 2 1000000 20000000 zeroG 0))
          (generate_month_data 2020 1 2 1000000 20000000 zeroG 0)
      ∧ (sortByDate
          (generate_month_data 2020 1 2 1000000 20000000 zeroG 0)).length
        = 2 :=
  batch_sorted_by_sale_date sortByDate sortByDate_contract 2020 1 2 1000000
    20000000 0 zeroG

/-- First record of the two-record batch used against stability. -/
def cexR0 : SaleRecord :=
  sampleRecord 2020 1 (get_days_in_month 2020 1) (carYearParams 2020).1
    (carYearParams 2020).2 1000000 20000000 0 zeroG 0

/-- Second record of the two-record batch used against stability. -/
def cexR1 : SaleRecord :=
  sampleRecord 2020 1 (get_days_in_month 2020 1) (carYearParams 2020).1
    (carYearParams 2020).2 1000000 20000000 1 zeroG 11

lemma cex_batch :
    generate_month_data 2020 1 2 1000000 20000000 zeroG 0 = [cexR0, cexR1] :=
  rfl

lemma cexR0_date : cexR0.sale_date = ⟨2020, 1, 1⟩ := by
  show (⟨2020, 1, pyRandint 1 (get_days_in_month 2020 1) (zeroG 0)⟩ : SaleDate)
    = ⟨2020, 1, 1⟩
  norm_num [pyRandint, get_days_in_month, zeroG, SaleDate.mk.injEq]

lemma cexR1_date : cexR1.sale_date = ⟨2020, 1, 1⟩ := by
  show (⟨2020, 1, pyRandint 1 (get_days_in_month 2020 1) (zeroG 11)⟩ : SaleDate)
    = ⟨2020, 1, 1⟩
  norm_num [pyRandint, get_days_in_month, zeroG, SaleDate.mk.injEq]

lemma cex_revTieSort : revTieSort [cexR0, cexR1] = [cexR1, cexR0] := by
  have hle : dateLe cexR1 cexR0 := by
    show dateKey cexR1.sale_date ≤ dateKey cexR0.sale_date
    rw [cexR1_date, cexR0_date]
  show List.orderedInsert dateLe cexR1 (List.orderedInsert dateLe cexR0 [])
    = [cexR1, cexR0]
  rw [List.orderedInsert, List.orderedInsert, if_pos hle]

/-- C3, counterexample: the sortedness-and-permutation contract that the
source's `sort_values` call (pandas default quicksort) provides does not
force stability. `revTieSort` satisfies the contract, yet on the
two-record batch generated for January 2020 from the all-zero stream —
both records carrying the same sale date — it emits the records in
reversed sample order. -/
theorem sort_stability_refuted :
    SortContract revTieSort
      ∧ (generate_month_data 2020 1 2 1000000 20000000 zeroG 0).map
          (fun r => dateKey r.sale_date) = [20200101, 20200101]
      ∧ (generate_month_data 2020 1 2 1000000 20000000 zeroG 0).map
          SaleRecord.sale_id = ["SALE20000000", "SALE20000001"]
      ∧ (revTieSort (generate_month_data 2020 1 2 1000000 20000000 zeroG 0)).map
          SaleRecord.sale_id = ["SALE20000001", "SALE20000000"] := by
  refine ⟨revTieSort_contract, ?_, by decide, ?_⟩
  · rw [cex_batch]
    simp only [List.map_cons, List.map_nil, cexR0_date, cexR1_date]
    norm_num [dateKey]
  · rw [cex_batch, cex_revTieSort]
    decide

lemma sale_price_bounds_aux (bp : ℤ) (hbp : 0 ≤ bp) (u : ℚ) (h0 : 0 ≤ u)
    (h1 : u < 1) :
    (95/100 : ℚ) * bp
        ≤ round2 ((bp : ℚ) * (1 + pyUniform (-5/100) (15/100) u))
      ∧ round2 ((bp : ℚ) * (1 + pyUniform (-5/100) (15/100) u))
        ≤ (115/100 : ℚ) * bp := by
  have hbp' : (0 : ℚ) ≤ (bp : ℚ) := by exact_mod_cast hbp
  have hu : pyUniform (-5/100) (15/100) u = -5/100 + (20/100) * u := by
    unfold pyUniform
    ring
  obtain ⟨hA, hB⟩ := round2_bounds (95 * bp) (115 * bp)
    ((bp : ℚ) * (1 + pyUniform (-5/100) (15/100) u))
    (by push_cast; rw [hu]; nlinarith) (by push_cast; rw [hu]; nlinarith)
  constructor
  · calc (95/100 : ℚ) * bp = ((95 * bp : ℤ) : ℚ) / 100 := by push_cast; ring
      _ ≤ _ := hA
  · calc round2 _ ≤ ((115 * bp : ℤ) : ℚ) / 100 := hB
      _ = (115/100 : ℚ) * bp := by push_cast; ring

lemma commission_bounds_aux (p : ℚ) (hp : 0 ≤ p) (u : ℚ) (h0 : 0 ≤ u)
    (h1 : u < 1) :
    (2/100 : ℚ) * p - 1/200 ≤ round2 (p * pyUniform (2/100) (5/100) u)
      ∧ round2 (p * pyUniform (2/100) (5/100) u)
        ≤ (5/100 : ℚ) * p + 1/200 := by
  have hc := round2_close (p * pyUniform (2/100) (5/100) u)
  have hlo : (2/100 : ℚ) * p ≤ p * pyUniform (2/100) (5/100) u := by
    unfold pyUniform
    nlinarith
  have hhi : p * pyUniform (2/100) (5/100) u ≤ (5/100 : ℚ) * p := by
    unfold pyUniform
    nlinarith
  exact ⟨by linarith [hc.1], by linarith [hc.2]⟩

/-- C6, amended: every record's sale price lies exactly within
[0.95 x basePrice, 1.15 x basePrice] of its catalog entry; its commission
lies within [0.02 x salePrice, 0.05 x salePrice] only up to the
two-decimal rounding granularity of 0.005. -/
theorem price_and_commission_bounds (year month days : ℤ) (cyc : List ℤ)
    (cyw : List ℚ) (co so i k : ℕ) (g : ℕ → ℚ)
    (hg : ∀ j, 0 ≤ g j ∧ g j < 1) :
    ∃ car ∈ car_inventory,
      (sampleRecord year month days cyc cyw co so i g k).car_make = car.make
        ∧ (sampleRecord year month days cyc cyw co so i g k).car_model
          = car.model
        ∧ (95/100 : ℚ) * car.base_price
          ≤ (sampleRecord year month days cyc cyw co so i g k).sale_price
        ∧ (sampleRecord year month days cyc cyw co so i g k).sale_price
          ≤ (115/100 : ℚ) * car.base_price
        ∧ (2/100 : ℚ) * (sampleRecord year month days cyc cyw co so i g k).sale_price
            - 1/200
          ≤ (sampleRecord year month days cyc cyw co so i g k).commission
        ∧ (sampleRecord year month days cyc cyw co so i g k).commission
          ≤ (5/100 : ℚ)
              * (sampleRecord year month days cyc cyw co so i g k).sale_price
            + 1/200 := by
  have hne : car_inventory ≠ [] := by simp [car_inventory]
  have hmem : pyChoiceD car_inventory dCar (g (k + 1)) ∈ car_inventory :=
    pyChoiceD_mem car_inventory dCar (g (k + 1)) hne (hg (k + 1)).1
      (hg (k + 1)).2
  have hbp : (0 : ℤ) ≤ (pyChoiceD car_inventory dCar (g (k + 1))).base_price :=
    inventory_base_price_nonneg _ hmem
  have hsp : (sampleRecord year month days cyc cyw co so i g k).sale_price
      = round2 (((pyChoiceD car_inventory dCar (g (k + 1))).base_price : ℚ)
          * (1 + pyUniform (-5/100) (15/100) (g (k + 2)))) := rfl
  have hcm : (sampleRecord year month days cyc cyw co so i g k).commission
      = round2 ((sampleRecord year month days cyc cyw co so i g k).sale_price
          * pyUniform (2/100) (5/100) (g (k + 10))) := rfl
  have hpb := sale_price_bounds_aux
    (pyChoiceD car_inventory dCar (g (k + 1))).base_price hbp (g (k + 2))
    (hg (k + 2)).1 (hg (k + 2)).2
  have hp0 : (0 : ℚ)
      ≤ (sampleRecord year month days cyc cyw co so i g k).sale_price := by
    rw [hsp]
    have : (0 : ℚ) ≤ ((pyChoiceD car_inventory dCar (g (k + 1))).base_price : ℚ) := by
      exact_mod_cast hbp
    nlinarith [hpb.1]
  have hcb := commission_bounds_aux
    (sampleRecord year month days cyc cyw co so i g k).sale_price hp0
    (g (k + 10)) (hg (k + 10)).1 (hg (k + 10)).2
  rw [← hsp] at hpb
  rw [← hcm] at hcb
  exact ⟨pyChoiceD car_inventory dCar (g (k + 1)), hmem, rfl, rfl, hpb.1,
    hpb.2, hcb.1, hcb.2⟩

/-- Witness for C6 at the concrete all-zero stream. -/
theorem price_and_commission_bounds_witness :
    ∃ car ∈ car_inventory,
      wRec.car_make = car.make ∧ wRec.car_model = car.model
        ∧ (95/100 : ℚ) * car.base_price ≤ wRec.sale_price
        ∧ wRec.sale_price ≤ (115/100 : ℚ) * car.base_price
        ∧ (2/100 : ℚ) * wRec.sale_price - 1/200 ≤ wRec.commission
        ∧ wRec.commission ≤ (5/100 : ℚ) * wRec.sale_price + 1/200 :=
  price_and_commission_bounds 2020 1 (get_days_in_month 2020 1)
    (carYearParams 2020).1 (carYearParams 2020).2 1000000 20000000 0 0 zeroG
    (fun _ => ⟨le_refl 0, by norm_num [zeroG]⟩)

/-- Random stream driving the C6 counterexample: draw 1 picks catalog
index 2 (Corolla, base price 22000), draw 2 sets the price variation so
that the sale price lands on 20900.01, and draw 10 makes the commission
rate exactly 0.02. -/
def cexG : ℕ → ℚ :=
  fun n => if n = 1 then 1/12 else if n = 2 then 1/440000 else 0

/-- The record generated from `cexG`. -/
def cexRec : SaleRecord :=
  sampleRecord 2020 1 31 [2019, 2020] [3/10, 7/10] 1000000 20000000 0 cexG 0

/-- C6, counterexample: the exact lower commission bound of the claim
fails. The record generated from `cexG` is a Corolla sold at 20900.01
with commission rate exactly 0.02; the commission rounds down to 418.00,
strictly below 0.02 x 20900.01 = 418.0002. (The draws of `cexG` all lie
in [0, 1).) -/
theorem commission_lower_bound_refuted :
    cexRec.car_model = "Corolla"
      ∧ cexRec.sale_price = 2090001/100
      ∧ cexRec.commission = 418
      ∧ cexRec.commission < (2/100 : ℚ) * cexRec.sale_price := by
  have hcar : pyChoiceD car_inventory dCar (cexG 1)
      = ⟨"Toyota", "Corolla", 22000, "Sedan"⟩ := by
    have hidx : (Int.floor (cexG 1 * (car_inventory.length : ℚ))).toNat = 2 := by
      norm_num [cexG, car_inventory]
      rfl
    unfold pyChoiceD
    rw [hidx]
    rfl
  have hsp : cexRec.sale_price
      = round2 (((pyChoiceD car_inventory dCar (cexG 1)).base_price : ℚ)
          * (1 + pyUniform (-5/100) (15/100) (cexG 2))) := rfl
  rw [hcar] at hsp
  have hpv : pyUniform (-5/100) (15/100) (cexG 2) = -109999/2200000 := by
    norm_num [pyUniform, cexG]
  rw [hpv] at hsp
  have hsp' : cexRec.sale_price = 2090001/100 := by
    rw [hsp]
    norm_num [round2, pyRound]
  have hcm : cexRec.commission
      = round2 (cexRec.sale_price * pyUniform (2/100) (5/100) (cexG 10)) := rfl
  have hcr : pyUniform (2/100) (5/100) (cexG 10) = 2/100 := by
    norm_num [pyUniform, cexG]
  rw [hsp', hcr] at hcm
  have hcm' : cexRec.commission = 418 := by
    rw [hcm]
    norm_num [round2, pyRound]
  have hmodel : cexRec.car_model
      = (pyChoiceD car_inventory dCar (cexG 1)).model := rfl
  refine ⟨by rw [hmodel, hcar], hsp', hcm', ?_⟩
  rw [hsp', hcm']
  norm_num

end CarSales
